import Mathlib

/-!
Verification of the builder-image assembly pipeline of
`vendor/github.com/buildpack/pack/create_builder.go`.

The Go code is shallowly embedded: external effects (temp-dir creation,
mkdir, file creation, TOML decode of `buildpack.toml`, archive creation,
`img.Append`, `Repo.Write`, the daemon's `PullImage`) are supplied by an
environment of oracles, and every call that matters to the specification
is recorded in an event trace.  Pure Go string/path helpers
(`strings.TrimPrefix`, `filepath.IsAbs`, `filepath.Join`, `filepath.Dir`,
`path.Clean`) are translated directly.
-/

namespace Riff

abbrev Err := String

/-- Models `strings.Split` on a single separator character, over the
character list of a string.  `splitOnChar c s` never returns `[]`. -/
def splitOnChar (c : Char) : List Char → List (List Char)
  | [] => [[]]
  | x :: xs =>
    match splitOnChar c xs with
    | [] => [[x]]
    | y :: ys => if x = c then [] :: y :: ys else (x :: y) :: ys

/-- Joins path components with `/` (inverse of splitting on `/`). -/
def joinSlash : List String → String
  | [] => ""
  | [s] => s
  | s :: rest => s ++ "/" ++ joinSlash rest

/-- Models Unix `filepath.IsAbs`: true iff the path starts with `/`. -/
def isAbs (p : String) : Bool :=
  match p.data with
  | [] => false
  | c :: _ => c = '/'

/-- One step of the element-stack loop of Go's `path.Clean`: skips empty
and `.` components, resolves `..` against the stack (dropping it at the
root). The stack is kept in reverse order. -/
def cleanPush (rooted : Bool) (acc : List String) (comp : String) : List String :=
  if comp = "" || comp = "." then acc
  else if comp = ".." then
    match acc with
    | [] => if rooted then [] else [".."]
    | top :: rest => if top = ".." then comp :: acc else rest
  else comp :: acc

/-- Models Go's `path.Clean` (Unix `filepath.Clean`): shortest lexical
equivalent of the path. -/
def goClean (path : String) : String :=
  if path = "" then "."
  else
    let rooted := isAbs path
    let comps := (splitOnChar '/' path.data).map (fun l => String.mk l)
    let stack := comps.foldl (cleanPush rooted) []
    let body := joinSlash stack.reverse
    if body = "" then (if rooted then "/" else ".")
    else if rooted then "/" ++ body else body

/-- Models two-argument Unix `filepath.Join`: empty elements are skipped
and the concatenation is cleaned. -/
def goJoin (a b : String) : String :=
  if a = "" then (if b = "" then "" else goClean b)
  else goClean (a ++ "/" ++ b)

/-- Models three-argument Unix `filepath.Join` for a non-empty first
element (the only way the source calls it). -/
def goJoin3 (a b c : String) : String :=
  goClean (a ++ "/" ++ b ++ "/" ++ c)

/-- Models Unix `filepath.Dir`: everything up to and including the final
`/`, cleaned; `.` when the path holds no `/`. -/
def goDir (path : String) : String :=
  match (path.data.reverse.findIdx? (fun c => c = '/')) with
  | none => "."
  | some k => goClean (String.mk (path.data.take (path.data.length - k)))

/-- Models `strings.TrimPrefix`: drops `pre` from the front of `s` when it
is a prefix, otherwise returns `s` unchanged. -/
def goTrimPfx (pre s : String) : String :=
  if pre.data.isPrefixOf s.data then String.mk (s.data.drop pre.data.length) else s

/-- A buildpack reference from builder.toml (`type Buildpack`). -/
structure Buildpack where
  ID : String
  URI : String
  deriving DecidableEq, Repr

/-- The nested `data.BP` record decoded from a module's buildpack.toml
(fields `id` and `version`). -/
structure BuildpackTomlData where
  id : String
  version : String
  deriving DecidableEq, Repr

/-- An image, tracked as the list of layer archives appended on top of it;
`img.Append` yields a new image with one more layer. -/
structure Image where
  layers : List String
  deriving DecidableEq, Repr

/-- Modelled from the spec: `lifecycle.BuildpackGroup` is vendored outside
this repository's sources; the spec describes an ordering group as an
ordered list of module identities, opaque to the assembler beyond
pass-through into the order manifest. -/
abbrev BuildpackGroup := List String

/-- The builder configuration consumed by `Create` (`type BuilderConfig`);
the repository store handle is part of the effect environment. -/
structure BuilderConfig where
  RepoName : String
  Buildpacks : List Buildpack
  Groups : List BuildpackGroup
  BaseImage : Image
  BuilderDir : String
  deriving DecidableEq, Repr

/-- The flags consumed by `BuilderConfigFromFlags`
(`type CreateBuilderFlags`). -/
structure CreateBuilderFlags where
  RepoName : String
  BuilderTomlPath : String
  StackID : String
  Publish : Bool
  NoPull : Bool
  deriving DecidableEq, Repr

/-- Observable events of one `Create` / `BuilderConfigFromFlags` run. -/
inductive Event where
  | appended (tar : String)
  | tgzCreated (tar : String)
  | fileWritten (path : String) (contents : String)
  | repoWriteCalled (img : Image)
  | logged (msg : String)
  | removedTmp (succeeded : Bool)
  | pulled (ref : String)
  deriving DecidableEq, Repr

/-- Effect oracles for `Create` and its helpers: each field gives the
outcome of one external call, keyed by that call's arguments. -/
structure Env where
  tempDir : Except Err String
  removeOk : Bool
  mkdirErr : String → Option Err
  createFileErr : String → Option Err
  writeFileErr : String → Option Err
  createTGZErr : String → String → String → Option Err
  decodeTomlRes : String → Except Err BuildpackTomlData
  appendErr : String → Option Err
  repoWriteErr : Option Err

/-- The identity-mismatch error of `buildpackLayer`
(`"buildpack ids did not match: %s != %s"`). -/
def idMismatchMsg (declared metaId : String) : String :=
  "buildpack ids did not match: " ++ declared ++ " != " ++ metaId

/-- The missing-version error of `buildpackLayer`
(`"buildpack.toml must provide version: %s"`). -/
def noVersionMsg (tomlPath : String) : String :=
  "buildpack.toml must provide version: " ++ tomlPath

/-- Lines 192-195 of `buildpackLayer`: strip a `file://` scheme from the
buildpack URI, then join against the builder directory unless absolute. -/
def resolveBuildpackDir (uri builderDir : String) : String :=
  let dir := goTrimPfx "file://" uri
  if isAbs dir then dir else goJoin builderDir dir

/-- `BuilderFactory.buildpackLayer`: resolve the module directory, decode
its buildpack.toml, validate id and version, then package the directory as
a layer archive named `<id>.<version>.tar`. -/
def buildpackLayer (env : Env) (dest : String) (buildpack : Buildpack)
    (builderDir : String) : Except Err String × List Event :=
  match env.decodeTomlRes (goJoin (resolveBuildpackDir buildpack.URI builderDir) "buildpack.toml") with
  | Except.error e =>
      (Except.error ("reading buildpack.toml from buildpack: " ++
        goJoin (resolveBuildpackDir buildpack.URI builderDir) "buildpack.toml" ++ ": " ++ e), [])
  | Except.ok bp =>
      if buildpack.ID ≠ bp.id then
        (Except.error (idMismatchMsg buildpack.ID bp.id), [])
      else if bp.version = "" then
        (Except.error (noVersionMsg (goJoin (resolveBuildpackDir buildpack.URI builderDir) "buildpack.toml")), [])
      else
        match env.createTGZErr (goJoin dest (buildpack.ID ++ "." ++ bp.version ++ ".tar"))
            (resolveBuildpackDir buildpack.URI builderDir)
            (goJoin3 "/buildpacks" buildpack.ID bp.version) with
        | some e => (Except.error e, [Event.tgzCreated (goJoin dest (buildpack.ID ++ "." ++ bp.version ++ ".tar"))])
        | none => (Except.ok (goJoin dest (buildpack.ID ++ "." ++ bp.version ++ ".tar")),
                   [Event.tgzCreated (goJoin dest (buildpack.ID ++ "." ++ bp.version ++ ".tar"))])

/-- Modelled from the spec: the TOML encoder is outside this repository's
sources; the spec fixes the manifest as the groups list serialized
verbatim, e.g. `groups = [["java"]]`, deterministically. -/
def encodeGroup (g : BuildpackGroup) : String :=
  "[" ++ String.intercalate ", " (g.map (fun i => "\x22" ++ i ++ "\x22")) ++ "]"

/-- Modelled from the spec: the full order manifest document for a groups
value (see `encodeGroup`). -/
def encodeOrder (groups : List BuildpackGroup) : String :=
  "groups = [" ++ String.intercalate ", " (groups.map encodeGroup) ++ "]\n"

/-- `BuilderFactory.orderLayer`: make the staging directory, create and
write `order.toml` with the serialized groups, then package the directory
as `order.tar`. -/
def orderLayer (env : Env) (dest : String) (groups : List BuildpackGroup) :
    Except Err String × List Event :=
  match env.mkdirErr (goJoin dest "buildpack") with
  | some e => (Except.error e, [])
  | none =>
    match env.createFileErr (goJoin (goJoin dest "buildpack") "order.toml") with
    | some e => (Except.error e, [])
    | none =>
      match env.writeFileErr (goJoin (goJoin dest "buildpack") "order.toml") with
      | some e => (Except.error e, [])
      | none =>
        match env.createTGZErr (goJoin dest "order.tar") (goJoin dest "buildpack") "/buildpacks" with
        | some e =>
            (Except.error e,
             [Event.fileWritten (goJoin (goJoin dest "buildpack") "order.toml") (encodeOrder groups)])
        | none =>
            (Except.ok (goJoin dest "order.tar"),
             [Event.fileWritten (goJoin (goJoin dest "buildpack") "order.toml") (encodeOrder groups),
              Event.tgzCreated (goJoin dest "order.tar")])

/-- The per-buildpack loop of `Create` (lines 143-152): generate each
module layer and append it to the current image, aborting on the first
failure with the wrapped error. -/
def bpLoop (env : Env) (tmpDir builderDir : String) :
    Image → List Buildpack → Except Err Image × List Event
  | image, [] => (Except.ok image, [])
  | image, bp :: rest =>
    match buildpackLayer env tmpDir bp builderDir with
    | (Except.error e, evs) =>
        (Except.error ("failed generate layer for buildpack \x22" ++ bp.ID ++ "\x22: " ++ e), evs)
    | (Except.ok tarFile, evs) =>
      match env.appendErr tarFile with
      | some e => (Except.error ("failed append buildpack layer to image: " ++ e), evs)
      | none =>
        match bpLoop env tmpDir builderDir (Image.mk (image.layers ++ [tarFile])) rest with
        | (r, evs2) => (r, evs ++ Event.appended tarFile :: evs2)

/-- The three success log lines of `Create` (lines 157-159). -/
def successLogs (repoName : String) : List Event :=
  [Event.logged ("Successfully created builder image: " ++ repoName),
   Event.logged "",
   Event.logged "Tip: Run \x22pack build <image name> --builder <builder image> --path <app source code>\x22 to use this builder"]

/-- `Create` after the temp dir exists (lines 135-161): order layer,
append it, run the buildpack loop, then write the repository and log. -/
def createBody (env : Env) (cfg : BuilderConfig) (tmpDir : String) :
    Except Err Unit × List Event :=
  match orderLayer env tmpDir cfg.Groups with
  | (Except.error e, evsO) =>
      (Except.error ("failed generate order.toml layer: " ++ e), evsO)
  | (Except.ok orderTar, evsO) =>
    match env.appendErr orderTar with
    | some e => (Except.error ("failed append order.toml layer to image: " ++ e), evsO)
    | none =>
      match bpLoop env tmpDir cfg.BuilderDir (Image.mk (cfg.BaseImage.layers ++ [orderTar])) cfg.Buildpacks with
      | (Except.error e, evsL) => (Except.error e, evsO ++ Event.appended orderTar :: evsL)
      | (Except.ok finalImg, evsL) =>
        match env.repoWriteErr with
        | some e =>
            (Except.error e,
             evsO ++ Event.appended orderTar :: (evsL ++ [Event.repoWriteCalled finalImg]))
        | none =>
            (Except.ok (),
             evsO ++ Event.appended orderTar :: (evsL ++ Event.repoWriteCalled finalImg :: successLogs cfg.RepoName))

/-- `BuilderFactory.Create` (lines 128-162): create the temp working
directory, run the pipeline, and remove the directory on every later exit
path via `defer os.Remove(tmpDir)`, whose error result is discarded. -/
def Create (env : Env) (cfg : BuilderConfig) : Except Err Unit × List Event :=
  match env.tempDir with
  | Except.error e => (Except.error ("failed to create temporary directory: " ++ e), [])
  | Except.ok tmpDir =>
    match createBody env cfg tmpDir with
    | (res, evs) => (res, evs ++ [Event.removedTmp env.removeOk])

/-- The same environment with a different removal outcome; used to state
that `Create` never depends on whether `os.Remove` succeeded. -/
def withRemoveOk (env : Env) (b : Bool) : Env :=
  { env with removeOk := b }

/-- Projection selecting `img.Append` calls from a trace. -/
def appendedTar : Event → Option String
  | Event.appended t => some t
  | _ => none

/-- Projection selecting `config.Repo.Write` calls from a trace. -/
def writeCall : Event → Option Image
  | Event.repoWriteCalled i => some i
  | _ => none

/-- Projection selecting log lines from a trace. -/
def logLine : Event → Option String
  | Event.logged m => some m
  | _ => none

/-- The layer archives appended to the image during a run, in order. -/
def appendedOf (evs : List Event) : List String := evs.filterMap appendedTar

/-- The images passed to `config.Repo.Write` during a run. -/
def writesOf (evs : List Event) : List Image := evs.filterMap writeCall

/-- The log lines emitted during a run, in order. -/
def logsOf (evs : List Event) : List String := evs.filterMap logLine

/-- Effect oracles for `BuilderConfigFromFlags`. -/
structure FlagsEnv where
  baseImageNameRes : String → String → Except Err String
  pullImageErr : String → Option Err
  decodeFileRes : String → Except Err (List Buildpack × List BuildpackGroup)
  readImageRes : String → Bool → Except Err (Option Image)
  repoStoreErr : String → Bool → Option Err

/-- `BuilderFactory.BuilderConfigFromFlags` (lines 81-111): resolve the
base image name, pull it unless no-pull or publish mode, decode
builder.toml, read the base image (nil is an error) and obtain the
repository store. -/
def BuilderConfigFromFlags (env : FlagsEnv) (flags : CreateBuilderFlags) :
    Except Err BuilderConfig × List Event :=
  match env.baseImageNameRes flags.StackID flags.RepoName with
  | Except.error e => (Except.error e, [])
  | Except.ok baseImage =>
    match (if !flags.NoPull && !flags.Publish then
             match env.pullImageErr baseImage with
             | some e =>
                 (some ("failed to pull stack build image \x22" ++ baseImage ++ "\x22: " ++ e),
                  [Event.logged ("Pulling builder base image  " ++ baseImage), Event.pulled baseImage])
             | none =>
                 (none, [Event.logged ("Pulling builder base image  " ++ baseImage), Event.pulled baseImage])
           else ((none : Option Err), ([] : List Event))) with
    | (some e, evs) => (Except.error e, evs)
    | (none, evs) =>
      match env.decodeFileRes flags.BuilderTomlPath with
      | Except.error e =>
          (Except.error ("failed to decode builder config from file \x22" ++
            flags.BuilderTomlPath ++ "\x22: " ++ e), evs)
      | Except.ok dec =>
        match env.readImageRes baseImage (!flags.Publish) with
        | Except.error e =>
            (Except.error ("failed to read base image \x22" ++ baseImage ++ "\x22: " ++ e), evs)
        | Except.ok none =>
            (Except.error ("base image \x22" ++ baseImage ++ "\x22 was not found"), evs)
        | Except.ok (some img) =>
          match env.repoStoreErr flags.RepoName (!flags.Publish) with
          | some e =>
              (Except.error ("failed to create repository store for builder image \x22" ++
                flags.RepoName ++ "\x22: " ++ e), evs)
          | none =>
              (Except.ok
                (BuilderConfig.mk flags.RepoName dec.1 dec.2 img (goDir flags.BuilderTomlPath)),
               evs)

/-- An environment in which every external call succeeds and every
buildpack.toml decodes to id `java`, version `1.0.0`. -/
def envOK : Env :=
  { tempDir := Except.ok "/tmp/cb"
    removeOk := true
    mkdirErr := fun _ => none
    createFileErr := fun _ => none
    writeFileErr := fun _ => none
    createTGZErr := fun _ _ _ => none
    decodeTomlRes := fun _ => Except.ok (BuildpackTomlData.mk "java" "1.0.0")
    appendErr := fun _ => none
    repoWriteErr := none }

/-- Like `envOK` but removing the temp directory fails. -/
def envRemoveFails : Env := { envOK with removeOk := false }

/-- Like `envOK` but every archive creation fails. -/
def envTGZFails : Env := { envOK with createTGZErr := fun _ _ _ => some "disk full" }

/-- A one-module builder configuration. -/
def cfgJava : BuilderConfig :=
  BuilderConfig.mk "myorg/builder" [Buildpack.mk "java" "bp-java"] [["java"]]
    (Image.mk ["base0"]) "/specdir"

/-- A builder configuration with an empty module list. -/
def cfgEmpty : BuilderConfig :=
  BuilderConfig.mk "myorg/builder" [] [["java"]] (Image.mk ["base0"]) "/specdir"

/-- A flags environment in which name resolution, pull, decode, read and
store all succeed. -/
def flagsEnvOK : FlagsEnv :=
  { baseImageNameRes := fun _ _ => Except.ok "registry.example/build"
    pullImageErr := fun _ => none
    decodeFileRes := fun _ => Except.ok ([Buildpack.mk "java" "bp-java"], [["java"]])
    readImageRes := fun _ _ => Except.ok (some (Image.mk ["base0"]))
    repoStoreErr := fun _ _ => none }

/-- Flags selecting pull mode (neither no-pull nor publish). -/
def flagsPull : CreateBuilderFlags :=
  CreateBuilderFlags.mk "myorg/builder" "/path/to/builder.toml" "stack1" false false

/-- Flags selecting no-pull mode. -/
def flagsNoPull : CreateBuilderFlags :=
  CreateBuilderFlags.mk "myorg/builder" "/path/to/builder.toml" "stack1" false true

/-- Flags selecting publish mode. -/
def flagsPublish : CreateBuilderFlags :=
  CreateBuilderFlags.mk "myorg/builder" "/path/to/builder.toml" "stack1" true false

/-- A trace fragment that contains no image append, no repository write
and no log line. -/
def quietEvs (evs : List Event) : Prop :=
  appendedOf evs = [] ∧ writesOf evs = [] ∧ logsOf evs = []

/-- The layer archive `buildpackLayer` would hand to `img.Append` for one
module, when it succeeds. -/
def bpTarOpt (env : Env) (tmp : String) (bdir : String) (bp : Buildpack) : Option String :=
  ((buildpackLayer env tmp bp bdir).1).toOption


/-- Like `envOK` but every buildpack.toml decodes to id `jvm`. -/
def envJvm : Env :=
  { envOK with decodeTomlRes := fun _ => Except.ok (BuildpackTomlData.mk "jvm" "1.0.0") }

/-- Like `envOK` but every buildpack.toml decodes to an empty version. -/
def envNoVersion : Env :=
  { envOK with decodeTomlRes := fun _ => Except.ok (BuildpackTomlData.mk "java" "") }

/-- Like `envOK` but every buildpack.toml decodes to id `jvm` with an
empty version. -/
def envJvmNoVersion : Env :=
  { envOK with decodeTomlRes := fun _ => Except.ok (BuildpackTomlData.mk "jvm" "") }

theorem appendedOf_append (a b : List Event) :
    appendedOf (a ++ b) = appendedOf a ++ appendedOf b := by
  simp [appendedOf]

theorem writesOf_append (a b : List Event) :
    writesOf (a ++ b) = writesOf a ++ writesOf b := by
  simp [writesOf]

theorem logsOf_append (a b : List Event) :
    logsOf (a ++ b) = logsOf a ++ logsOf b := by
  simp [logsOf]

theorem appendedOf_cons_hit (t : String) (l : List Event) :
    appendedOf (Event.appended t :: l) = t :: appendedOf l := by
  simp [appendedOf, List.filterMap_cons, appendedTar]

theorem appendedOf_cons_miss (e : Event) (l : List Event) (h : appendedTar e = none) :
    appendedOf (e :: l) = appendedOf l := by
  simp [appendedOf, List.filterMap_cons, h]

theorem writesOf_cons_hit (i : Image) (l : List Event) :
    writesOf (Event.repoWriteCalled i :: l) = i :: writesOf l := by
  simp [writesOf, List.filterMap_cons, writeCall]

theorem writesOf_cons_miss (e : Event) (l : List Event) (h : writeCall e = none) :
    writesOf (e :: l) = writesOf l := by
  simp [writesOf, List.filterMap_cons, h]

theorem logsOf_cons_hit (m : String) (l : List Event) :
    logsOf (Event.logged m :: l) = m :: logsOf l := by
  simp [logsOf, List.filterMap_cons, logLine]

theorem logsOf_cons_miss (e : Event) (l : List Event) (h : logLine e = none) :
    logsOf (e :: l) = logsOf l := by
  simp [logsOf, List.filterMap_cons, h]

theorem buildpackLayer_quiet (env : Env) (dest : String) (bp : Buildpack) (bdir : String) :
    quietEvs (buildpackLayer env dest bp bdir).2 := by
  unfold buildpackLayer
  repeat' split
  all_goals simp [quietEvs, appendedOf, writesOf, logsOf, appendedTar, writeCall, logLine]

theorem orderLayer_quiet (env : Env) (dest : String) (groups : List BuildpackGroup) :
    quietEvs (orderLayer env dest groups).2 := by
  unfold orderLayer
  repeat' split
  all_goals simp [quietEvs, appendedOf, writesOf, logsOf, appendedTar, writeCall, logLine]

theorem successLogs_events (repoName : String) :
    appendedOf (successLogs repoName) = [] ∧ writesOf (successLogs repoName) = [] := by
  simp [successLogs, appendedOf, writesOf, appendedTar, writeCall]

theorem bpLoop_nil (env : Env) (tmp bdir : String) (img : Image) :
    bpLoop env tmp bdir img [] = (Except.ok img, []) := rfl

theorem bpLoop_cons_layer_err (env : Env) (tmp bdir : String) (img : Image)
    (bp : Buildpack) (rest : List Buildpack) (e : Err) (evsB : List Event)
    (h : buildpackLayer env tmp bp bdir = (Except.error e, evsB)) :
    bpLoop env tmp bdir img (bp :: rest) =
      (Except.error ("failed generate layer for buildpack \x22" ++ bp.ID ++ "\x22: " ++ e), evsB) := by
  unfold bpLoop
  rw [h]

theorem bpLoop_cons_append_err (env : Env) (tmp bdir : String) (img : Image)
    (bp : Buildpack) (rest : List Buildpack) (tar : String) (evsB : List Event) (e : Err)
    (h1 : buildpackLayer env tmp bp bdir = (Except.ok tar, evsB))
    (h2 : env.appendErr tar = some e) :
    bpLoop env tmp bdir img (bp :: rest) =
      (Except.error ("failed append buildpack layer to image: " ++ e), evsB) := by
  unfold bpLoop
  rw [h1]
  dsimp only
  rw [h2]

theorem bpLoop_cons_step (env : Env) (tmp bdir : String) (img : Image)
    (bp : Buildpack) (rest : List Buildpack) (tar : String) (evsB : List Event)
    (h1 : buildpackLayer env tmp bp bdir = (Except.ok tar, evsB))
    (h2 : env.appendErr tar = none) :
    bpLoop env tmp bdir img (bp :: rest) =
      ((bpLoop env tmp bdir (Image.mk (img.layers ++ [tar])) rest).1,
       evsB ++ Event.appended tar :: (bpLoop env tmp bdir (Image.mk (img.layers ++ [tar])) rest).2) := by
  rcases hr : bpLoop env tmp bdir (Image.mk (img.layers ++ [tar])) rest with ⟨r2, evs2⟩
  unfold bpLoop
  rw [h1]
  dsimp only
  rw [h2, hr]

theorem createBody_order_err (env : Env) (cfg : BuilderConfig) (d : String)
    (e : Err) (evsO : List Event)
    (h : orderLayer env d cfg.Groups = (Except.error e, evsO)) :
    createBody env cfg d = (Except.error ("failed generate order.toml layer: " ++ e), evsO) := by
  unfold createBody
  rw [h]

theorem createBody_append_err (env : Env) (cfg : BuilderConfig) (d : String)
    (t : String) (evsO : List Event) (e : Err)
    (h1 : orderLayer env d cfg.Groups = (Except.ok t, evsO))
    (h2 : env.appendErr t = some e) :
    createBody env cfg d = (Except.error ("failed append order.toml layer to image: " ++ e), evsO) := by
  unfold createBody
  rw [h1]
  dsimp only
  rw [h2]

theorem createBody_loop_err (env : Env) (cfg : BuilderConfig) (d : String)
    (t : String) (evsO : List Event) (e : Err) (evsL : List Event)
    (h1 : orderLayer env d cfg.Groups = (Except.ok t, evsO))
    (h2 : env.appendErr t = none)
    (h3 : bpLoop env d cfg.BuilderDir (Image.mk (cfg.BaseImage.layers ++ [t])) cfg.Buildpacks =
      (Except.error e, evsL)) :
    createBody env cfg d = (Except.error e, evsO ++ Event.appended t :: evsL) := by
  unfold createBody
  rw [h1]
  dsimp only
  rw [h2]
  dsimp only
  rw [h3]

theorem createBody_write_err (env : Env) (cfg : BuilderConfig) (d : String)
    (t : String) (evsO : List Event) (fi : Image) (evsL : List Event) (e : Err)
    (h1 : orderLayer env d cfg.Groups = (Except.ok t, evsO))
    (h2 : env.appendErr t = none)
    (h3 : bpLoop env d cfg.BuilderDir (Image.mk (cfg.BaseImage.layers ++ [t])) cfg.Buildpacks =
      (Except.ok fi, evsL))
    (h4 : env.repoWriteErr = some e) :
    createBody env cfg d =
      (Except.error e, evsO ++ Event.appended t :: (evsL ++ [Event.repoWriteCalled fi])) := by
  unfold createBody
  rw [h1]
  dsimp only
  rw [h2]
  dsimp only
  rw [h3]
  dsimp only
  rw [h4]

theorem createBody_success (env : Env) (cfg : BuilderConfig) (d : String)
    (t : String) (evsO : List Event) (fi : Image) (evsL : List Event)
    (h1 : orderLayer env d cfg.Groups = (Except.ok t, evsO))
    (h2 : env.appendErr t = none)
    (h3 : bpLoop env d cfg.BuilderDir (Image.mk (cfg.BaseImage.layers ++ [t])) cfg.Buildpacks =
      (Except.ok fi, evsL))
    (h4 : env.repoWriteErr = none) :
    createBody env cfg d =
      (Except.ok (),
       evsO ++ Event.appended t :: (evsL ++ Event.repoWriteCalled fi :: successLogs cfg.RepoName)) := by
  unfold createBody
  rw [h1]
  dsimp only
  rw [h2]
  dsimp only
  rw [h3]
  dsimp only
  rw [h4]

theorem Create_tmp_err (env : Env) (cfg : BuilderConfig) (e : Err)
    (h : env.tempDir = Except.error e) :
    Create env cfg = (Except.error ("failed to create temporary directory: " ++ e), []) := by
  unfold Create
  rw [h]

theorem Create_run (env : Env) (cfg : BuilderConfig) (d : String)
    (h : env.tempDir = Except.ok d) :
    Create env cfg =
      ((createBody env cfg d).1, (createBody env cfg d).2 ++ [Event.removedTmp env.removeOk]) := by
  rcases hb : createBody env cfg d with ⟨r, evs⟩
  unfold Create
  rw [h]
  dsimp only
  rw [hb]

theorem bpLoop_quiet_writes (env : Env) (tmp bdir : String) (img : Image)
    (bps : List Buildpack) :
    writesOf (bpLoop env tmp bdir img bps).2 = [] ∧
    logsOf (bpLoop env tmp bdir img bps).2 = [] := by
  induction bps generalizing img with
  | nil => simp [bpLoop_nil, writesOf, logsOf]
  | cons bp rest ih =>
    have hq := buildpackLayer_quiet env tmp bp bdir
    rcases hbl : buildpackLayer env tmp bp bdir with ⟨r, evsB⟩
    rw [hbl] at hq
    dsimp only at hq
    obtain ⟨-, hqw, hql⟩ := hq
    cases r with
    | error e =>
      rw [bpLoop_cons_layer_err env tmp bdir img bp rest e evsB hbl]
      exact ⟨hqw, hql⟩
    | ok tar =>
      cases happ : env.appendErr tar with
      | some e =>
        rw [bpLoop_cons_append_err env tmp bdir img bp rest tar evsB e hbl happ]
        exact ⟨hqw, hql⟩
      | none =>
        rw [bpLoop_cons_step env tmp bdir img bp rest tar evsB hbl happ]
        have ih2 := ih (Image.mk (img.layers ++ [tar]))
        dsimp only
        constructor
        · rw [writesOf_append, writesOf_cons_miss (Event.appended tar) _ rfl, hqw, ih2.1]
          rfl
        · rw [logsOf_append, logsOf_cons_miss (Event.appended tar) _ rfl, hql, ih2.2]
          rfl

theorem bpLoop_ok_spec (env : Env) (tmp bdir : String) (img img' : Image)
    (bps : List Buildpack) (evs : List Event)
    (h : bpLoop env tmp bdir img bps = (Except.ok img', evs)) :
    appendedOf evs = bps.filterMap (bpTarOpt env tmp bdir) ∧
    (appendedOf evs).length = bps.length ∧
    img'.layers = img.layers ++ appendedOf evs := by
  induction bps generalizing img evs with
  | nil =>
    rw [bpLoop_nil] at h
    simp only [Prod.mk.injEq, Except.ok.injEq] at h
    obtain ⟨h1, h2⟩ := h
    subst h1
    subst h2
    simp [appendedOf]
  | cons bp rest ih =>
    have hq := buildpackLayer_quiet env tmp bp bdir
    rcases hbl : buildpackLayer env tmp bp bdir with ⟨r, evsB⟩
    rw [hbl] at hq
    dsimp only at hq
    obtain ⟨hqa, -, -⟩ := hq
    cases r with
    | error e =>
      rw [bpLoop_cons_layer_err env tmp bdir img bp rest e evsB hbl] at h
      simp at h
    | ok tar =>
      cases happ : env.appendErr tar with
      | some e =>
        rw [bpLoop_cons_append_err env tmp bdir img bp rest tar evsB e hbl happ] at h
        simp at h
      | none =>
        rw [bpLoop_cons_step env tmp bdir img bp rest tar evsB hbl happ] at h
        rcases hrec : bpLoop env tmp bdir (Image.mk (img.layers ++ [tar])) rest with ⟨r2, evs2⟩
        rw [hrec] at h
        dsimp only at h
        simp only [Prod.mk.injEq] at h
        obtain ⟨h1, h2⟩ := h
        subst h1
        subst h2
        obtain ⟨ih1, ih2, ih3⟩ := ih (Image.mk (img.layers ++ [tar])) evs2 hrec
        have htar : bpTarOpt env tmp bdir bp = some tar := by
          unfold bpTarOpt
          rw [hbl]
          rfl
        refine ⟨?_, ?_, ?_⟩
        · rw [appendedOf_append, hqa, appendedOf_cons_hit, ih1, List.filterMap_cons, htar]
          rfl
        · rw [appendedOf_append, hqa, appendedOf_cons_hit]
          simp [ih2]
        · rw [appendedOf_append, hqa, appendedOf_cons_hit]
          simp only [List.nil_append]
          rw [ih3]
          simp

theorem goTrimPfx_append (pre p : String) : goTrimPfx pre (pre ++ p) = p := by
  unfold goTrimPfx
  rw [String.data_append]
  rw [if_pos]
  · rw [List.drop_left]
  · rw [ List.isPrefixOf_iff_prefix]
    exact List.prefix_append pre.data p.data

/-- Claim C3: a module whose metadata id differs from the declared
buildpack ID makes buildpackLayer fail with the id-mismatch error — whose
text contains both ids — and produce no archive (empty event trace, in
particular no tgzCreated event). -/
theorem buildpackLayer_id_mismatch_fails (env : Env) (dest : String) (bp : Buildpack)
    (bdir : String) (md : BuildpackTomlData)
    (hdec : env.decodeTomlRes (goJoin (resolveBuildpackDir bp.URI bdir) "buildpack.toml") =
      Except.ok md)
    (hne : bp.ID ≠ md.id) :
    buildpackLayer env dest bp bdir = (Except.error (idMismatchMsg bp.ID md.id), []) ∧
    bp.ID.data <:+: (idMismatchMsg bp.ID md.id).data ∧
    md.id.data <:+: (idMismatchMsg bp.ID md.id).data := by
  refine ⟨?_, ?_, ?_⟩
  · unfold buildpackLayer
    rw [hdec]
    dsimp only
    rw [if_pos hne]
  · refine ⟨"buildpack ids did not match: ".data, (" != " ++ md.id).data, ?_⟩
    simp [idMismatchMsg, String.data_append]
  · refine ⟨("buildpack ids did not match: " ++ bp.ID ++ " != ").data, [], ?_⟩
    simp [idMismatchMsg, String.data_append]

/-- Claim C3 witness: a module declared `java` whose metadata says `jvm`
fails with the mismatch error and an empty event trace. -/
theorem buildpackLayer_id_mismatch_fails_witness :
    buildpackLayer envJvm "/tmp/cb" (Buildpack.mk "java" "bp-java") "/specdir" =
      (Except.error (idMismatchMsg "java" "jvm"), []) ∧
    "java".data <:+: (idMismatchMsg "java" "jvm").data ∧
    "jvm".data <:+: (idMismatchMsg "java" "jvm").data :=
  buildpackLayer_id_mismatch_fails envJvm "/tmp/cb" (Buildpack.mk "java" "bp-java")
    "/specdir" (BuildpackTomlData.mk "jvm" "1.0.0") rfl (by decide)

/-- Claim C4: a module whose metadata version is empty makes
buildpackLayer fail with the missing-version error and produce no archive:
the empty event trace shows no CreateTGZFile call was reached. -/
theorem buildpackLayer_missing_version_fails (env : Env) (dest : String) (bp : Buildpack)
    (bdir : String) (md : BuildpackTomlData)
    (hdec : env.decodeTomlRes (goJoin (resolveBuildpackDir bp.URI bdir) "buildpack.toml") =
      Except.ok md)
    (hid : bp.ID = md.id)
    (hv : md.version = "") :
    buildpackLayer env dest bp bdir =
      (Except.error (noVersionMsg (goJoin (resolveBuildpackDir bp.URI bdir) "buildpack.toml")), []) := by
  unfold buildpackLayer
  rw [hdec]
  dsimp only
  rw [if_neg (by simp [hid]), if_pos hv]

/-- Claim C4 witness: a module whose metadata version is empty fails with
the missing-version validation error before any archive is created. -/
theorem buildpackLayer_missing_version_fails_witness :
    buildpackLayer envNoVersion "/tmp/cb" (Buildpack.mk "java" "bp-java") "/specdir" =
      (Except.error (noVersionMsg (goJoin (resolveBuildpackDir "bp-java" "/specdir") "buildpack.toml")), []) :=
  buildpackLayer_missing_version_fails envNoVersion "/tmp/cb" (Buildpack.mk "java" "bp-java")
    "/specdir" (BuildpackTomlData.mk "java" "") rfl rfl rfl

/-- Claim C10: when a module's metadata both mismatches the declared id
and has an empty version, the identity check fires first: the returned
error is the id-mismatch error, not the missing-version error. -/
theorem buildpackLayer_id_check_precedes_version (env : Env) (dest : String) (bp : Buildpack)
    (bdir : String) (md : BuildpackTomlData)
    (hdec : env.decodeTomlRes (goJoin (resolveBuildpackDir bp.URI bdir) "buildpack.toml") =
      Except.ok md)
    (hne : bp.ID ≠ md.id)
    (hv : md.version = "") :
    buildpackLayer env dest bp bdir = (Except.error (idMismatchMsg bp.ID md.id), []) := by
  unfold buildpackLayer
  rw [hdec]
  dsimp only
  rw [if_pos hne]

/-- Claim C10 witness: metadata with id `jvm` and empty version, declared
as `java`, yields the id-mismatch error. -/
theorem buildpackLayer_id_check_precedes_version_witness :
    buildpackLayer envJvmNoVersion "/tmp/cb" (Buildpack.mk "java" "bp-java") "/specdir" =
      (Except.error (idMismatchMsg "java" "jvm"), []) :=
  buildpackLayer_id_check_precedes_version envJvmNoVersion "/tmp/cb"
    (Buildpack.mk "java" "bp-java") "/specdir" (BuildpackTomlData.mk "jvm" "") rfl (by decide) rfl

/-- Claim C5: module locations resolve by first stripping a `file://`
scheme and then joining against the spec directory only when the result is
not absolute; a stripped absolute path ignores the spec directory. -/
theorem resolveBuildpackDir_spec :
    (∀ loc specDir : String, isAbs (goTrimPfx "file://" loc) = false →
        resolveBuildpackDir loc specDir = goJoin specDir (goTrimPfx "file://" loc)) ∧
    (∀ p specDir : String, isAbs p = true →
        resolveBuildpackDir ("file://" ++ p) specDir = p) := by
  constructor
  · intro loc specDir h
    unfold resolveBuildpackDir
    dsimp only
    rw [if_neg (by simp [h])]
  · intro p specDir h
    unfold resolveBuildpackDir
    dsimp only
    rw [goTrimPfx_append, if_pos (by simp [h])]

/-- Claim C5 witness: `"relative/path"` joins against the spec directory;
`"file:///abs/path"` resolves to `/abs/path` ignoring the spec directory. -/
theorem resolveBuildpackDir_spec_witness :
    resolveBuildpackDir "relative/path" "/specdir" =
      goJoin "/specdir" (goTrimPfx "file://" "relative/path") ∧
    resolveBuildpackDir ("file://" ++ "/abs/path") "/specdir" = "/abs/path" :=
  ⟨resolveBuildpackDir_spec.1 "relative/path" "/specdir" (by decide),
   resolveBuildpackDir_spec.2 "/abs/path" "/specdir" (by decide)⟩

theorem orderLayer_written (env : Env) (d : String) (g : List BuildpackGroup)
    (p s : String) (h : Event.fileWritten p s ∈ (orderLayer env d g).2) :
    s = encodeOrder g := by
  unfold orderLayer at h
  repeat' split at h
  all_goals simp at h
  · exact h.2
  · exact h.2

/-- Claim C8: order-manifest generation is deterministic — any two runs of
orderLayer over the same groups value that write manifest bytes write the
same bytes, namely the serialization of the groups alone (independent of
the environment and destination). -/
theorem orderLayer_manifest_deterministic (env₁ env₂ : Env) (d₁ d₂ : String)
    (g : List BuildpackGroup) (p₁ s₁ p₂ s₂ : String)
    (h₁ : Event.fileWritten p₁ s₁ ∈ (orderLayer env₁ d₁ g).2)
    (h₂ : Event.fileWritten p₂ s₂ ∈ (orderLayer env₂ d₂ g).2) :
    s₁ = s₂ ∧ s₁ = encodeOrder g := by
  have e₁ := orderLayer_written env₁ d₁ g p₁ s₁ h₁
  have e₂ := orderLayer_written env₂ d₂ g p₂ s₂ h₂
  exact ⟨e₁.trans e₂.symm, e₁⟩

/-- Claim C8 witness: two runs over the groups `[["java"]]` — one fully
successful, one whose archive step fails, with different destinations —
both write exactly the serialized groups. -/
theorem orderLayer_manifest_deterministic_witness :
    Event.fileWritten "/tmp/cb/buildpack/order.toml" "groups = [[\x22java\x22]]\n" ∈
      (orderLayer envOK "/tmp/cb" [["java"]]).2 ∧
    Event.fileWritten "/d2/buildpack/order.toml" "groups = [[\x22java\x22]]\n" ∈
      (orderLayer envTGZFails "/d2" [["java"]]).2 ∧
    ("groups = [[\x22java\x22]]\n" = "groups = [[\x22java\x22]]\n" ∧
     "groups = [[\x22java\x22]]\n" = encodeOrder [["java"]]) :=
  ⟨by decide, by decide,
   orderLayer_manifest_deterministic envOK envTGZFails "/tmp/cb" "/d2" [["java"]]
     "/tmp/cb/buildpack/order.toml" "groups = [[\x22java\x22]]\n"
     "/d2/buildpack/order.toml" "groups = [[\x22java\x22]]\n" (by decide) (by decide)⟩

theorem bcff_snd_err (env : FlagsEnv) (flags : CreateBuilderFlags) (e : Err)
    (h : env.baseImageNameRes flags.StackID flags.RepoName = Except.error e) :
    (BuilderConfigFromFlags env flags).2 = [] := by
  unfold BuilderConfigFromFlags
  rw [h]

theorem bcff_snd_ok (env : FlagsEnv) (flags : CreateBuilderFlags) (b : String)
    (h : env.baseImageNameRes flags.StackID flags.RepoName = Except.ok b) :
    (BuilderConfigFromFlags env flags).2 =
      (if !flags.NoPull && !flags.Publish then
        [Event.logged ("Pulling builder base image  " ++ b), Event.pulled b]
       else []) := by
  unfold BuilderConfigFromFlags
  rw [h]
  dsimp only
  by_cases hc : (!flags.NoPull && !flags.Publish) = true
  · simp only [if_pos hc]
    cases hp : env.pullImageErr b with
    | some e => rfl
    | none =>
      dsimp only
      repeat' split
      all_goals rfl
  · simp only [if_neg hc]
    repeat' split
    all_goals rfl

/-- Claim C7: BuilderConfigFromFlags calls PullImage exactly when both
NoPull and Publish are false (given the base image name resolves); in
no-pull or publish mode PullImage is never called, under any environment. -/
theorem builderConfigFromFlags_pull_iff (env : FlagsEnv) (flags : CreateBuilderFlags) :
    (∀ r, flags.NoPull = true ∨ flags.Publish = true →
        Event.pulled r ∉ (BuilderConfigFromFlags env flags).2) ∧
    (∀ b, env.baseImageNameRes flags.StackID flags.RepoName = Except.ok b →
        ((∃ r, Event.pulled r ∈ (BuilderConfigFromFlags env flags).2) ↔
          (flags.NoPull = false ∧ flags.Publish = false))) := by
  constructor
  · intro r hflag
    rcases hbase : env.baseImageNameRes flags.StackID flags.RepoName with e | b
    · rw [bcff_snd_err env flags e hbase]
      simp
    · rw [bcff_snd_ok env flags b hbase]
      have hcond : ¬((!flags.NoPull && !flags.Publish) = true) := by
        rcases hflag with h1 | h1 <;> simp [h1]
      rw [if_neg hcond]
      simp
  · intro b hb
    rw [bcff_snd_ok env flags b hb]
    constructor
    · rintro ⟨r, hr⟩
      by_cases hc : (!flags.NoPull && !flags.Publish) = true
      · simpa using hc
      · rw [if_neg hc] at hr
        simp at hr
    · rintro ⟨h1, h2⟩
      refine ⟨b, ?_⟩
      rw [if_pos (by simp [h1, h2])]
      simp

/-- Claim C7 witness: with a resolving base image name, no-pull mode and
publish mode never pull, while default mode pulls. -/
theorem builderConfigFromFlags_pull_iff_witness :
    Event.pulled "registry.example/build" ∉ (BuilderConfigFromFlags flagsEnvOK flagsNoPull).2 ∧
    Event.pulled "registry.example/build" ∉ (BuilderConfigFromFlags flagsEnvOK flagsPublish).2 ∧
    (∃ r, Event.pulled r ∈ (BuilderConfigFromFlags flagsEnvOK flagsPull).2) :=
  ⟨(builderConfigFromFlags_pull_iff flagsEnvOK flagsNoPull).1 _ (Or.inl rfl),
   (builderConfigFromFlags_pull_iff flagsEnvOK flagsPublish).1 _ (Or.inr rfl),
   ((builderConfigFromFlags_pull_iff flagsEnvOK flagsPull).2 "registry.example/build" rfl).mpr
     ⟨rfl, rfl⟩⟩

theorem mem_writesOf (i : Image) (evs : List Event) :
    Event.repoWriteCalled i ∈ evs ↔ i ∈ writesOf evs := by
  constructor
  · intro h
    exact List.mem_filterMap.mpr ⟨_, h, rfl⟩
  · intro h
    rcases List.mem_filterMap.mp h with ⟨e, he, hw⟩
    cases e <;> simp [writeCall] at hw
    subst hw
    exact he

/-- Claim C1: a successful Create run appends exactly N+1 layers to the
base image in order — the order layer first, then one buildpack layer per
module in the declaration order of the Buildpacks list — and the image
handed to the repository carries exactly those layers on the base. -/
theorem create_appends_order_then_modules (env : Env) (cfg : BuilderConfig)
    (h : (Create env cfg).1 = Except.ok ()) :
    ∃ d t, env.tempDir = Except.ok d ∧
      (orderLayer env d cfg.Groups).1 = Except.ok t ∧
      appendedOf (Create env cfg).2 =
        t :: cfg.Buildpacks.filterMap (bpTarOpt env d cfg.BuilderDir) ∧
      (appendedOf (Create env cfg).2).length = cfg.Buildpacks.length + 1 ∧
      ∃ img, Event.repoWriteCalled img ∈ (Create env cfg).2 ∧
        img.layers = cfg.BaseImage.layers ++ appendedOf (Create env cfg).2 := by
  rcases htd : env.tempDir with e | d
  · rw [Create_tmp_err env cfg e htd] at h
    simp at h
  · have hrun := Create_run env cfg d htd
    rcases ho : orderLayer env d cfg.Groups with ⟨ro, evsO⟩
    have hq := orderLayer_quiet env d cfg.Groups
    rw [ho] at hq
    dsimp only at hq
    obtain ⟨hqa, hqw, hql⟩ := hq
    cases ro with
    | error e =>
      rw [createBody_order_err env cfg d e evsO ho] at hrun
      rw [hrun] at h
      simp at h
    | ok t =>
      cases happ : env.appendErr t with
      | some e =>
        rw [createBody_append_err env cfg d t evsO e ho happ] at hrun
        rw [hrun] at h
        simp at h
      | none =>
        rcases hl : bpLoop env d cfg.BuilderDir (Image.mk (cfg.BaseImage.layers ++ [t]))
            cfg.Buildpacks with ⟨rl, evsL⟩
        cases rl with
        | error e =>
          rw [createBody_loop_err env cfg d t evsO e evsL ho happ hl] at hrun
          rw [hrun] at h
          simp at h
        | ok fi =>
          cases hw : env.repoWriteErr with
          | some e =>
            rw [createBody_write_err env cfg d t evsO fi evsL e ho happ hl hw] at hrun
            rw [hrun] at h
            simp at h
          | none =>
            rw [createBody_success env cfg d t evsO fi evsL ho happ hl hw] at hrun
            dsimp only at hrun
            obtain ⟨hl1, hl2, hl3⟩ :=
              bpLoop_ok_spec env d cfg.BuilderDir _ fi cfg.Buildpacks evsL hl
            have htr : appendedOf (Create env cfg).2 = t :: appendedOf evsL := by
              rw [hrun]
              simp only [appendedOf_append, appendedOf_cons_hit]
              rw [appendedOf_cons_miss (Event.repoWriteCalled fi) _ rfl, hqa,
                  (successLogs_events cfg.RepoName).1]
              simp [appendedOf, appendedTar]
            refine ⟨d, t, rfl, ?_, ?_, ?_, fi, ?_, ?_⟩
            · rw [ho]
            · rw [htr, hl1]
            · rw [htr]
              simp [hl2]
            · rw [hrun]
              simp
            · rw [htr, hl3]
              simp

/-- Claim C1 witness: the one-module success run, with its concrete trace
and written image. -/
theorem create_appends_order_then_modules_witness :
    ∃ d t, envOK.tempDir = Except.ok d ∧
      (orderLayer envOK d cfgJava.Groups).1 = Except.ok t ∧
      appendedOf (Create envOK cfgJava).2 =
        t :: cfgJava.Buildpacks.filterMap (bpTarOpt envOK d cfgJava.BuilderDir) ∧
      (appendedOf (Create envOK cfgJava).2).length = cfgJava.Buildpacks.length + 1 ∧
      ∃ img, Event.repoWriteCalled img ∈ (Create envOK cfgJava).2 ∧
        img.layers = cfgJava.BaseImage.layers ++ appendedOf (Create envOK cfgJava).2 :=
  create_appends_order_then_modules envOK cfgJava rfl

/-- Claim C2: the repository write is gated behind the whole pipeline —
whenever Repo.Write is called, all N+1 layers were already appended before
the call and the written image is the base plus exactly those layers; and
whenever Create fails, either Repo.Write was never called or the failure
is the write's own error. -/
theorem create_write_gated (env : Env) (cfg : BuilderConfig) :
    (∀ img, Event.repoWriteCalled img ∈ (Create env cfg).2 →
      ∃ pre post, (Create env cfg).2 = pre ++ Event.repoWriteCalled img :: post ∧
        (appendedOf pre).length = cfg.Buildpacks.length + 1 ∧
        appendedOf post = [] ∧
        img.layers = cfg.BaseImage.layers ++ appendedOf pre) ∧
    (∀ e, (Create env cfg).1 = Except.error e →
      writesOf (Create env cfg).2 = [] ∨ env.repoWriteErr = some e) := by
  rcases htd : env.tempDir with e0 | d
  · rw [Create_tmp_err env cfg e0 htd]
    constructor
    · intro img hmem
      simp at hmem
    · intro e he
      left
      simp [writesOf]
  · have hrun := Create_run env cfg d htd
    rcases ho : orderLayer env d cfg.Groups with ⟨ro, evsO⟩
    have hq := orderLayer_quiet env d cfg.Groups
    rw [ho] at hq
    dsimp only at hq
    obtain ⟨hqa, hqw, hql⟩ := hq
    cases ro with
    | error e =>
      rw [createBody_order_err env cfg d e evsO ho] at hrun
      dsimp only at hrun
      rw [hrun]
      constructor
      · intro img hmem
        exfalso
        have hin := (mem_writesOf img _).mp hmem
        rw [writesOf_append, hqw] at hin
        simp [writesOf, writeCall] at hin
      · intro e' he'
        left
        rw [writesOf_append, hqw]
        simp [writesOf, writeCall]
    | ok t =>
      cases happ : env.appendErr t with
      | some e =>
        rw [createBody_append_err env cfg d t evsO e ho happ] at hrun
        dsimp only at hrun
        rw [hrun]
        constructor
        · intro img hmem
          exfalso
          have hin := (mem_writesOf img _).mp hmem
          rw [writesOf_append, hqw] at hin
          simp [writesOf, writeCall] at hin
        · intro e' he'
          left
          rw [writesOf_append, hqw]
          simp [writesOf, writeCall]
      | none =>
        rcases hl : bpLoop env d cfg.BuilderDir (Image.mk (cfg.BaseImage.layers ++ [t]))
            cfg.Buildpacks with ⟨rl, evsL⟩
        have hlq := bpLoop_quiet_writes env d cfg.BuilderDir
          (Image.mk (cfg.BaseImage.layers ++ [t])) cfg.Buildpacks
        rw [hl] at hlq
        dsimp only at hlq
        obtain ⟨hlw, hll⟩ := hlq
        cases rl with
        | error e =>
          rw [createBody_loop_err env cfg d t evsO e evsL ho happ hl] at hrun
          dsimp only at hrun
          rw [hrun]
          constructor
          · intro img hmem
            exfalso
            have hin := (mem_writesOf img _).mp hmem
            rw [writesOf_append, writesOf_append, hqw,
                writesOf_cons_miss (Event.appended t) _ rfl, hlw] at hin
            simp [writesOf, writeCall] at hin
          · intro e' he'
            left
            rw [writesOf_append, writesOf_append, hqw,
                writesOf_cons_miss (Event.appended t) _ rfl, hlw]
            simp [writesOf, writeCall]
        | ok fi =>
          obtain ⟨hl1, hl2, hl3⟩ :=
            bpLoop_ok_spec env d cfg.BuilderDir _ fi cfg.Buildpacks evsL hl
          cases hw : env.repoWriteErr with
          | some e =>
            rw [createBody_write_err env cfg d t evsO fi evsL e ho happ hl hw] at hrun
            dsimp only at hrun
            constructor
            · intro img hmem
              rw [hrun] at hmem
              have hin := (mem_writesOf img _).mp hmem
              rw [writesOf_append, writesOf_append, hqw,
                  writesOf_cons_miss (Event.appended t) _ rfl, writesOf_append, hlw] at hin
              simp [writesOf, writeCall] at hin
              subst hin
              refine ⟨evsO ++ Event.appended t :: evsL, [Event.removedTmp env.removeOk],
                ?_, ?_, ?_, ?_⟩
              · rw [hrun]
                simp
              · rw [appendedOf_append, hqa, appendedOf_cons_hit]
                simp [hl2]
              · simp [appendedOf, appendedTar]
              · rw [appendedOf_append, hqa, appendedOf_cons_hit, hl3]
                simp
            · intro e' he'
              right
              rw [hrun] at he'
              dsimp only at he'
              simp at he'
              rw [he']
          | none =>
            rw [createBody_success env cfg d t evsO fi evsL ho happ hl hw] at hrun
            dsimp only at hrun
            constructor
            · intro img hmem
              rw [hrun] at hmem
              have hin := (mem_writesOf img _).mp hmem
              rw [writesOf_append, writesOf_append, hqw,
                  writesOf_cons_miss (Event.appended t) _ rfl, writesOf_append, hlw,
                  writesOf_cons_hit, (successLogs_events cfg.RepoName).2] at hin
              simp [writesOf, writeCall] at hin
              subst hin
              refine ⟨evsO ++ Event.appended t :: evsL,
                successLogs cfg.RepoName ++ [Event.removedTmp env.removeOk], ?_, ?_, ?_, ?_⟩
              · rw [hrun]
                simp
              · rw [appendedOf_append, hqa, appendedOf_cons_hit]
                simp [hl2]
              · rw [appendedOf_append, (successLogs_events cfg.RepoName).1]
                simp [appendedOf, appendedTar]
              · rw [appendedOf_append, hqa, appendedOf_cons_hit, hl3]
                simp
            · intro e' he'
              rw [hrun] at he'
              dsimp only at he'
              simp at he'

/-- Claim C2 witness: in the one-module success run the write call sits
after both appends and before only append-free events. -/
theorem create_write_gated_witness :
    ∃ pre post, (Create envOK cfgJava).2 =
        pre ++ Event.repoWriteCalled
          (Image.mk ["base0", "/tmp/cb/order.tar", "/tmp/cb/java.1.0.0.tar"]) :: post ∧
      (appendedOf pre).length = cfgJava.Buildpacks.length + 1 ∧
      appendedOf post = [] ∧
      (Image.mk ["base0", "/tmp/cb/order.tar", "/tmp/cb/java.1.0.0.tar"]).layers =
        cfgJava.BaseImage.layers ++ appendedOf pre :=
  (create_write_gated envOK cfgJava).1 _ (by decide)

/-- Claim C9: with an empty Buildpacks list, Create still succeeds,
appends exactly one layer (the order layer) and writes the base image plus
that single layer to the repository. -/
theorem create_empty_buildpacks_succeeds (env : Env) (cfg : BuilderConfig) (d t : String)
    (hbp : cfg.Buildpacks = [])
    (htd : env.tempDir = Except.ok d)
    (ho : (orderLayer env d cfg.Groups).1 = Except.ok t)
    (happ : env.appendErr t = none)
    (hw : env.repoWriteErr = none) :
    (Create env cfg).1 = Except.ok () ∧
    appendedOf (Create env cfg).2 = [t] ∧
    Event.repoWriteCalled (Image.mk (cfg.BaseImage.layers ++ [t])) ∈ (Create env cfg).2 := by
  rcases ho2 : orderLayer env d cfg.Groups with ⟨ro, evsO⟩
  rw [ho2] at ho
  dsimp only at ho
  subst ho
  have hq := orderLayer_quiet env d cfg.Groups
  rw [ho2] at hq
  dsimp only at hq
  obtain ⟨hqa, hqw, hql⟩ := hq
  have hloop : bpLoop env d cfg.BuilderDir (Image.mk (cfg.BaseImage.layers ++ [t]))
      cfg.Buildpacks = (Except.ok (Image.mk (cfg.BaseImage.layers ++ [t])), []) := by
    rw [hbp]
    exact bpLoop_nil env d cfg.BuilderDir (Image.mk (cfg.BaseImage.layers ++ [t]))
  have hrun := Create_run env cfg d htd
  rw [createBody_success env cfg d t evsO (Image.mk (cfg.BaseImage.layers ++ [t])) []
      ho2 happ hloop hw] at hrun
  dsimp only at hrun
  rw [hrun]
  refine ⟨rfl, ?_, ?_⟩
  · simp only [appendedOf_append, appendedOf_cons_hit]
    rw [hqa,
        appendedOf_cons_miss (Event.repoWriteCalled (Image.mk (cfg.BaseImage.layers ++ [t]))) _ rfl,
        (successLogs_events cfg.RepoName).1]
    simp [appendedOf, appendedTar]
  · simp

/-- Claim C9 witness: the empty-module configuration under the
all-success environment. -/
theorem create_empty_buildpacks_succeeds_witness :
    (Create envOK cfgEmpty).1 = Except.ok () ∧
    appendedOf (Create envOK cfgEmpty).2 = ["/tmp/cb/order.tar"] ∧
    Event.repoWriteCalled (Image.mk (cfgEmpty.BaseImage.layers ++ ["/tmp/cb/order.tar"])) ∈
      (Create envOK cfgEmpty).2 :=
  create_empty_buildpacks_succeeds envOK cfgEmpty "/tmp/cb" "/tmp/cb/order.tar"
    rfl rfl rfl rfl rfl

theorem bpLoop_withRemoveOk (env : Env) (b : Bool) (tmp bdir : String) (img : Image)
    (bps : List Buildpack) :
    bpLoop (withRemoveOk env b) tmp bdir img bps = bpLoop env tmp bdir img bps := by
  induction bps generalizing img with
  | nil => rfl
  | cons bp rest ih =>
    have hbl0 : buildpackLayer (withRemoveOk env b) tmp bp bdir =
        buildpackLayer env tmp bp bdir := rfl
    rcases hbl : buildpackLayer env tmp bp bdir with ⟨r, evsB⟩
    have hbl' : buildpackLayer (withRemoveOk env b) tmp bp bdir = (r, evsB) := hbl0.trans hbl
    cases r with
    | error e =>
      rw [bpLoop_cons_layer_err (withRemoveOk env b) tmp bdir img bp rest e evsB hbl',
          bpLoop_cons_layer_err env tmp bdir img bp rest e evsB hbl]
    | ok tar =>
      cases happ : env.appendErr tar with
      | some e =>
        have happ' : (withRemoveOk env b).appendErr tar = some e := happ
        rw [bpLoop_cons_append_err (withRemoveOk env b) tmp bdir img bp rest tar evsB e hbl' happ',
            bpLoop_cons_append_err env tmp bdir img bp rest tar evsB e hbl happ]
      | none =>
        have happ' : (withRemoveOk env b).appendErr tar = none := happ
        rw [bpLoop_cons_step (withRemoveOk env b) tmp bdir img bp rest tar evsB hbl' happ',
            bpLoop_cons_step env tmp bdir img bp rest tar evsB hbl happ, ih]

theorem createBody_withRemoveOk (env : Env) (b : Bool) (cfg : BuilderConfig) (d : String) :
    createBody (withRemoveOk env b) cfg d = createBody env cfg d := by
  have ho0 : orderLayer (withRemoveOk env b) d cfg.Groups = orderLayer env d cfg.Groups := rfl
  rcases ho : orderLayer env d cfg.Groups with ⟨ro, evsO⟩
  have ho' := ho0.trans ho
  cases ro with
  | error e =>
    rw [createBody_order_err (withRemoveOk env b) cfg d e evsO ho',
        createBody_order_err env cfg d e evsO ho]
  | ok t =>
    cases happ : env.appendErr t with
    | some e =>
      have happ' : (withRemoveOk env b).appendErr t = some e := happ
      rw [createBody_append_err (withRemoveOk env b) cfg d t evsO e ho' happ',
          createBody_append_err env cfg d t evsO e ho happ]
    | none =>
      have happ' : (withRemoveOk env b).appendErr t = none := happ
      rcases hl : bpLoop env d cfg.BuilderDir (Image.mk (cfg.BaseImage.layers ++ [t]))
          cfg.Buildpacks with ⟨rl, evsL⟩
      have hl' : bpLoop (withRemoveOk env b) d cfg.BuilderDir
          (Image.mk (cfg.BaseImage.layers ++ [t])) cfg.Buildpacks = (rl, evsL) :=
        (bpLoop_withRemoveOk env b d cfg.BuilderDir _ cfg.Buildpacks).trans hl
      cases rl with
      | error e =>
        rw [createBody_loop_err (withRemoveOk env b) cfg d t evsO e evsL ho' happ' hl',
            createBody_loop_err env cfg d t evsO e evsL ho happ hl]
      | ok fi =>
        cases hw : env.repoWriteErr with
        | some e =>
          have hw' : (withRemoveOk env b).repoWriteErr = some e := hw
          rw [createBody_write_err (withRemoveOk env b) cfg d t evsO fi evsL e ho' happ' hl' hw',
              createBody_write_err env cfg d t evsO fi evsL e ho happ hl hw]
        | none =>
          have hw' : (withRemoveOk env b).repoWriteErr = none := hw
          rw [createBody_success (withRemoveOk env b) cfg d t evsO fi evsL ho' happ' hl' hw',
              createBody_success env cfg d t evsO fi evsL ho happ hl hw]

/-- Claim C6 (amended): once the temp directory exists, its removal is
attempted on every exit path, and the removal outcome is silently
discarded — it changes neither the result of Create nor the log lines
(`defer os.Remove(tmpDir)` drops the error; nothing is logged). -/
theorem create_cleanup_best_effort (env : Env) (cfg : BuilderConfig) (b : Bool) (d : String)
    (htd : env.tempDir = Except.ok d) :
    Event.removedTmp env.removeOk ∈ (Create env cfg).2 ∧
    (Create (withRemoveOk env b) cfg).1 = (Create env cfg).1 ∧
    logsOf (Create (withRemoveOk env b) cfg).2 = logsOf (Create env cfg).2 := by
  have htd' : (withRemoveOk env b).tempDir = Except.ok d := htd
  have h1 := Create_run env cfg d htd
  have h2 := Create_run (withRemoveOk env b) cfg d htd'
  have hbody := createBody_withRemoveOk env b cfg d
  rw [hbody] at h2
  refine ⟨?_, ?_, ?_⟩
  · rw [h1]
    simp
  · rw [h1, h2]
  · rw [h1, h2]
    dsimp only
    rw [logsOf_append, logsOf_append]
    simp [logsOf, logLine]

/-- Claim C6 (amended) witness: flipping the removal outcome on the
one-module run changes neither result nor logs, and the removal attempt is
in the trace. -/
theorem create_cleanup_best_effort_witness :
    Event.removedTmp envOK.removeOk ∈ (Create envOK cfgJava).2 ∧
    (Create (withRemoveOk envOK false) cfgJava).1 = (Create envOK cfgJava).1 ∧
    logsOf (Create (withRemoveOk envOK false) cfgJava).2 = logsOf (Create envOK cfgJava).2 :=
  create_cleanup_best_effort envOK cfgJava false "/tmp/cb" rfl

/-- Claim C6 counterexample: a run whose temp-dir removal fails still
succeeds, and its complete log output is exactly the three success lines —
the removal failure is silently discarded, not logged (`defer
os.Remove(tmpDir)` ignores the error), contradicting the claim that a
removal failure is logged. -/
theorem create_remove_failure_unlogged_cex :
    envRemoveFails.removeOk = false ∧
    (Create envRemoveFails cfgJava).1 = Except.ok () ∧
    Event.removedTmp false ∈ (Create envRemoveFails cfgJava).2 ∧
    logsOf (Create envRemoveFails cfgJava).2 =
      ["Successfully created builder image: myorg/builder", "",
       "Tip: Run \x22pack build <image name> --builder <builder image> --path <app source code>\x22 to use this builder"] :=
  ⟨rfl, rfl, by decide, rfl⟩

end Riff
